import Mathlib

/-!
Shallow embedding of the think-tracker search and analytics core.

The source of truth is the TypeScript repository: the SQL queries issued by
`src/db/index.ts` (sessions/messages tables of `src/db/schema.sql`), the
capture-time normalization in `captureMessage`, and the pagination parsing in
`src/utils/validation.ts`.  Tables are embedded as Lean lists of rows; each SQL
query is translated clause by clause (WHERE filter, JOIN as a filtered product,
aggregates as folds, ORDER BY as a stable sort on the listed keys, LIMIT/OFFSET
as take/drop).  PostgreSQL's full-text machinery (`plainto_tsquery`, `@@`,
`ts_rank`, `ts_headline`) is external to the repository, so it is passed in as
function parameters; every property proved below holds for all instantiations.
Numeric SQL values are embedded as `Int`/`Nat`/`ℚ` (timestamps as integral
epoch seconds, `numeric`/`real` as `ℚ`).
-/

namespace ThinkTracker

/-- A tool-call record, one element of the `tool_calls` JSONB array of a
message (`ToolCall` of `src/types/index.ts`).  The stored JSON may lack any of
the fields, so the ones the analytics queries project out (`name`,
`duration_ms`, `error`) are optional here; `->>' on a missing key yields SQL
NULL, embedded as `none`. -/
structure ToolCall where
  id : String
  name : Option String
  input : List (String × String)
  output : Option String
  error : Option String
  duration_ms : Option ℚ
deriving DecidableEq

/-- A row of the `messages` table (`src/db/schema.sql`). `created_at` is epoch
seconds. -/
structure Message where
  id : String
  session_id : String
  role : String
  content : String
  thinking_content : Option String
  thinking_tokens : Int
  model : Option String
  input_tokens : Int
  output_tokens : Int
  tool_calls : List ToolCall
  created_at : Int
deriving DecidableEq

/-- A row of the `sessions` table (`src/db/schema.sql`). -/
structure Session where
  id : String
  name : String
  project_path : Option String
  started_at : Int
  ended_at : Option Int
  metadata : List (String × String)
deriving DecidableEq

/-- The database state the queries run against: the two tables, in insertion
order. -/
structure Database where
  sessions : List Session
  messages : List Message
deriving DecidableEq

/-! ## Capture-time thinking normalization (`captureMessage`, src/db/index.ts)

`captureMessage` resolves the first non-nullish value among the alternate
input fields `thinking_content ?? thinking_text ?? thinking ?? thoughts` and
then runs `normalizeThinkingContent` on it. -/

/-- The JavaScript value space of the alternate thinking fields:
`string | string[]` (null/undefined are `none` at the `Option` layer). -/
inductive ThinkingValue where
  | str : String → ThinkingValue
  | arr : List String → ThinkingValue
deriving DecidableEq

/-- JavaScript truthiness of a thinking value, as tested by `if (!value)`:
the empty string is falsy; every array is truthy, including the empty
array. -/
def thinkingTruthy : ThinkingValue → Bool
  | .str s => !(s == "")
  | .arr _ => true

/-- `normalizeThinkingContent` of `captureMessage`:
`if (!value) return null; return Array.isArray(value) ?
value.filter(Boolean).join('\n') : value`.  `filter(Boolean)` on a string
array drops exactly the empty strings. -/
def normalizeThinkingContent (value : Option ThinkingValue) : Option String :=
  match value with
  | none => none
  | some v =>
    if thinkingTruthy v then
      match v with
      | .str s => some s
      | .arr xs => some (String.intercalate "\n" (xs.filter (fun x => !(x == ""))))
    else none

/-- The four alternate thinking input fields of `CaptureMessageInput` as
`captureMessage` destructures them. -/
structure CaptureThinkingFields where
  thinking_content : Option ThinkingValue
  thinking_text : Option ThinkingValue
  thinking : Option ThinkingValue
  thoughts : Option ThinkingValue
deriving DecidableEq

/-- The resolution chain `thinking_content ?? thinking_text ?? thinking ??
thoughts ?? null` (nullish coalescing: first non-nullish value wins). -/
def resolvedThinking (i : CaptureThinkingFields) : Option ThinkingValue :=
  ((i.thinking_content.or i.thinking_text).or i.thinking).or i.thoughts

/-- The `thinking_content` value `captureMessage` passes to the INSERT: the
resolved alternate field, normalized. -/
def capturedThinkingContent (i : CaptureThinkingFields) : Option String :=
  normalizeThinkingContent (resolvedThinking i)

/-! ## Pagination parsing (`parsePagination`, src/utils/validation.ts) -/

/-- Decimal value of the leading digit run of a character list, `none` when
there is no leading digit (JavaScript `parseInt` returns NaN then, and stops
at the first non-digit otherwise). -/
def leadingDigitsVal (cs : List Char) : Option Nat :=
  let ds := cs.takeWhile Char.isDigit
  if ds.length = 0 then none
  else some (ds.foldl (fun acc c => acc * 10 + (c.toNat - 48)) 0)

/-- JavaScript `parseInt(s, 10)`: skip leading whitespace, optional sign,
then the leading decimal digit run; `none` models NaN. -/
def jsParseInt (s : String) : Option Int :=
  match s.toList.dropWhile (fun c => c.isWhitespace) with
  | '-' :: rest => (leadingDigitsVal rest).map (fun n => -(n : Int))
  | '+' :: rest => (leadingDigitsVal rest).map (fun n => (n : Int))
  | cs => (leadingDigitsVal cs).map (fun n => (n : Int))

/-- JavaScript `v || d` applied to a parsed integer: NaN (`none`) and `0` are
falsy and fall back to the default. -/
def jsOrIntDefault (v : Option Int) (d : Int) : Int :=
  match v with
  | none => d
  | some n => if n = 0 then d else n

/-- `Math.min` on integers. -/
def jsMin (a b : Int) : Int := if a ≤ b then a else b

/-- `Math.max` on integers. -/
def jsMax (a b : Int) : Int := if a ≤ b then b else a

/-- `PAGINATION.DEFAULT_LIMIT` (src/utils/constants.ts). -/
def PAGINATION_DEFAULT_LIMIT : Int := 50

/-- `PAGINATION.MAX_LIMIT` (src/utils/constants.ts). -/
def PAGINATION_MAX_LIMIT : Int := 100

/-- `PAGINATION.DEFAULT_OFFSET` (src/utils/constants.ts). -/
def PAGINATION_DEFAULT_OFFSET : Int := 0

/-- `parsePagination` (src/utils/validation.ts):
`limit = Math.min(maxLimit, Math.max(1, parseInt(limitStr || '', 10) ||
defaultLimit))`, `offset = Math.max(0, parseInt(offsetStr || '', 10) ||
PAGINATION.DEFAULT_OFFSET)`.  The function never throws. -/
def parsePagination (limitStr offsetStr : Option String)
    (maxLimit defaultLimit : Int) : Int × Int :=
  let limit :=
    jsMin maxLimit (jsMax 1 (jsOrIntDefault (jsParseInt (limitStr.getD "")) defaultLimit))
  let offset :=
    jsMax 0 (jsOrIntDefault (jsParseInt (offsetStr.getD "")) PAGINATION_DEFAULT_OFFSET)
  (limit, offset)

/-! ## Full-text search (`searchMessages`, src/db/index.ts)

The WHERE clause is `search_vector @@ plainto_tsquery('english', $1)` plus the
optional `m.session_id = $k` / `m.role = $k` conditions, which are pushed only
when the corresponding option is truthy (`if (sessionId)`, `if (role)` — the
empty string is falsy).  `search_vector` is a generated column over
`(content, thinking_content)` (src/db/schema.sql), so the match and rank
functions take exactly those two columns plus the query. -/

/-- The options object of `searchMessages`. -/
structure SearchOptions where
  sessionId : Option String
  role : Option String
  limit : Int
  offset : Int
  searchThinking : Bool
deriving DecidableEq

/-- One result row of the ranked SELECT of `searchMessages`
(`SearchResult` of `src/types/index.ts`). -/
structure SearchRow where
  id : String
  session_id : String
  session_name : String
  role : String
  content_snippet : String
  thinking_snippet : Option String
  created_at : Int
  rank : ℚ
deriving DecidableEq

/-- The WHERE clause of both `searchMessages` queries, evaluated on one
message row: the full-text match always, the session and role equalities only
when the corresponding option is truthy. -/
def matchesConditions (ftsMatch : String → Option String → String → Bool)
    (query : String) (opts : SearchOptions) (m : Message) : Bool :=
  ftsMatch m.content m.thinking_content query
    && (match opts.sessionId with
        | none => true
        | some sid => if sid = "" then true else m.session_id == sid)
    && (match opts.role with
        | none => true
        | some r => if r = "" then true else m.role == r)

/-- `FROM messages m JOIN sessions s ON m.session_id = s.id`: the filtered
product of the two tables, in table order. -/
def joinedPairs (db : Database) : List (Message × Session) :=
  db.messages.flatMap (fun m =>
    (db.sessions.filter (fun s => s.id == m.session_id)).map (fun s => (m, s)))

/-- The ordering of `ORDER BY rank DESC, m.created_at DESC`: a row may precede
another iff its rank is larger, or ranks are equal and its creation time is no
smaller.  The SQL lists no further key, so rows equal in both keys are not
ordered between themselves; the embedding realizes one legal execution by
sorting stably over table order. -/
def searchOrder (a b : SearchRow) : Prop :=
  b.rank < a.rank ∨ (a.rank = b.rank ∧ b.created_at ≤ a.created_at)

instance : DecidableRel searchOrder := fun a b =>
  inferInstanceAs (Decidable (b.rank < a.rank ∨ (a.rank = b.rank ∧ b.created_at ≤ a.created_at)))

instance : IsTotal SearchRow searchOrder := by
  constructor
  intro a b
  rcases lt_trichotomy a.rank b.rank with h | h | h
  · exact Or.inr (Or.inl h)
  · rcases le_total a.created_at b.created_at with hc | hc
    · exact Or.inr (Or.inr ⟨h.symm, hc⟩)
    · exact Or.inl (Or.inr ⟨h, hc⟩)
  · exact Or.inl (Or.inl h)

instance : IsTrans SearchRow searchOrder := by
  constructor
  intro a b c hab hbc
  rcases hab with h1 | ⟨e1, c1⟩
  · rcases hbc with h2 | ⟨e2, c2⟩
    · exact Or.inl (h2.trans h1)
    · exact Or.inl (e2 ▸ h1)
  · rcases hbc with h2 | ⟨e2, c2⟩
    · exact Or.inl (by rw [e1]; exact h2)
    · exact Or.inr ⟨e1.trans e2, c2.trans c1⟩

/-- The SELECT list of the ranked query of `searchMessages`: the message and
joined-session columns, `ts_headline` snippets (for thinking only when the
`searchThinking` flag is set, else the literal `NULL`), and `ts_rank` over the
generated search vector. -/
def mkSearchRow (ftsRank : String → Option String → String → ℚ)
    (tsHeadline : String → String → String) (query : String)
    (searchThinking : Bool) (m : Message) (s : Session) : SearchRow :=
  { id := m.id
    session_id := m.session_id
    session_name := s.name
    role := m.role
    content_snippet := tsHeadline m.content query
    thinking_snippet :=
      if searchThinking then some (tsHeadline (m.thinking_content.getD "") query)
      else none
    created_at := m.created_at
    rank := ftsRank m.content m.thinking_content query }

/-- The candidate rows shared by both queries of `searchMessages`: the join,
restricted to the WHERE clause. -/
def searchCandidates (ftsMatch : String → Option String → String → Bool)
    (db : Database) (query : String) (opts : SearchOptions) :
    List (Message × Session) :=
  (joinedPairs db).filter (fun p => matchesConditions ftsMatch query opts p.1)

/-- `searchMessages` (src/db/index.ts): the COUNT query over the WHERE clause
gives `total`; the ranked query applies the same WHERE clause, builds the
result rows, orders by `rank DESC, created_at DESC` and slices
`LIMIT limit OFFSET offset`. -/
def searchMessages (ftsMatch : String → Option String → String → Bool)
    (ftsRank : String → Option String → String → ℚ)
    (tsHeadline : String → String → String)
    (db : Database) (query : String) (opts : SearchOptions) :
    List SearchRow × Nat :=
  (((List.insertionSort searchOrder
      ((searchCandidates ftsMatch db query opts).map
        (fun p => mkSearchRow ftsRank tsHeadline query opts.searchThinking p.1 p.2))).drop
      opts.offset.toNat).take opts.limit.toNat,
   (searchCandidates ftsMatch db query opts).length)

/-! ## Analytics (src/db/index.ts) -/

/-- The result shape of `getOverallStats` (`SessionStats` of
`src/types/index.ts`). -/
structure OverallStats where
  total_sessions : Nat
  total_messages : Nat
  total_thinking_tokens : Int
  total_input_tokens : Int
  total_output_tokens : Int
  avg_thinking_tokens_per_message : ℚ
deriving DecidableEq

/-- `getOverallStats`: table counts, `COALESCE(SUM(...), 0)` token sums, and
`COALESCE(AVG(thinking_tokens) FILTER (WHERE thinking_tokens > 0), 0)` — the
average runs only over the messages whose thinking-token count is positive,
and the empty average (SQL NULL) is coalesced to 0. -/
def getOverallStats (db : Database) : OverallStats :=
  { total_sessions := db.sessions.length
    total_messages := db.messages.length
    total_thinking_tokens := (db.messages.map (fun m => m.thinking_tokens)).sum
    total_input_tokens := (db.messages.map (fun m => m.input_tokens)).sum
    total_output_tokens := (db.messages.map (fun m => m.output_tokens)).sum
    avg_thinking_tokens_per_message :=
      if (db.messages.filter (fun m => 0 < m.thinking_tokens)).length = 0 then 0
      else (((db.messages.filter (fun m => 0 < m.thinking_tokens)).map
              (fun m => m.thinking_tokens)).sum : ℚ)
        / ((db.messages.filter (fun m => 0 < m.thinking_tokens)).length : ℚ) }

/-- One output row of `getToolUsageStats` (`ToolUsageStats` of
`src/types/index.ts`).  `tool_name` is `tool_call->>'name'`, which is SQL NULL
(`none`) for entries lacking a name; `avg_duration_ms` is NULL when no call of
the group carries a duration. -/
structure ToolUsageRow where
  tool_name : Option String
  call_count : Nat
  avg_duration_ms : Option ℚ
  error_count : Nat
deriving DecidableEq

/-- `jsonb_array_elements(tool_calls)` over the whole `messages` table: every
tool-call record of every message, in table order. -/
def allToolCalls (db : Database) : List ToolCall :=
  db.messages.flatMap (fun m => m.tool_calls)

/-- One GROUP BY group of `getToolUsageStats`: the tool-call records whose
`->>' name equals the key `n` (SQL GROUP BY puts all NULL keys into a single
group). -/
def toolGroup (calls : List ToolCall) (n : Option String) : List ToolCall :=
  calls.filter (fun c => c.name == n)

/-- The aggregates of one GROUP BY group of `getToolUsageStats`: `COUNT(*)`,
`AVG((tool_call->>'duration_ms')::numeric)` — SQL AVG skips NULL inputs, and
is NULL on an empty set — and
`COUNT(*) FILTER (WHERE tool_call->>'error' IS NOT NULL)`. -/
def toolGroupRow (calls : List ToolCall) (n : Option String) : ToolUsageRow :=
  { tool_name := n
    call_count := (toolGroup calls n).length
    avg_duration_ms :=
      if ((toolGroup calls n).filterMap (fun c => c.duration_ms)).length = 0 then none
      else some (((toolGroup calls n).filterMap (fun c => c.duration_ms)).sum
        / (((toolGroup calls n).filterMap (fun c => c.duration_ms)).length : ℚ))
    error_count := ((toolGroup calls n).filter (fun c => c.error.isSome)).length }

/-- The ordering of `ORDER BY call_count DESC` on tool-usage rows. -/
def callCountOrder (a b : ToolUsageRow) : Prop :=
  b.call_count ≤ a.call_count

instance : DecidableRel callCountOrder := fun a b =>
  inferInstanceAs (Decidable (b.call_count ≤ a.call_count))

instance : IsTotal ToolUsageRow callCountOrder :=
  ⟨fun a b => (Nat.le_total b.call_count a.call_count).imp id id⟩

instance : IsTrans ToolUsageRow callCountOrder :=
  ⟨fun _ _ _ h1 h2 => h2.trans h1⟩

/-- The distinct GROUP BY keys of `getToolUsageStats`: the distinct
`tool_call->>'name'` values over all tool-call records, NULL included. -/
def toolNameKeys (db : Database) : List (Option String) :=
  ((allToolCalls db).map (fun c => c.name)).dedup

/-- `getToolUsageStats` (src/db/index.ts): unnest every `tool_calls` array,
group by `tool_call->>'name'` (one group per distinct key, NULL included),
aggregate each group, and order by `call_count DESC`. -/
def getToolUsageStats (db : Database) : List ToolUsageRow :=
  List.insertionSort callCountOrder
    ((toolNameKeys db).map (toolGroupRow (allToolCalls db)))

/-- The single row produced by the aggregate query of `getSessionStats`
before the TypeScript layer reads it: `duration_minutes` is
`EXTRACT(EPOCH FROM (MAX(created_at) - MIN(created_at))) / 60`, which is SQL
NULL (`none`) when the session has no messages. -/
structure SessionAggregateRow where
  message_count : Nat
  thinking_tokens : Int
  input_tokens : Int
  output_tokens : Int
  tool_calls : Nat
  duration_minutes : Option ℚ
deriving DecidableEq

/-- The stats object `getSessionStats` returns to its caller. -/
structure SessionStatsResult where
  message_count : Nat
  thinking_tokens : Int
  input_tokens : Int
  output_tokens : Int
  tool_calls : Nat
  duration_minutes : ℚ
deriving DecidableEq

/-- The aggregate SELECT of `getSessionStats` over
`WHERE session_id = $1`.  An aggregate query with no GROUP BY always yields
exactly one row, even when no message matches. -/
def sessionAggregateRow (db : Database) (sessionId : String) : SessionAggregateRow :=
  let ms := db.messages.filter (fun m => m.session_id == sessionId)
  { message_count := ms.length
    thinking_tokens := (ms.map (fun m => m.thinking_tokens)).sum
    input_tokens := (ms.map (fun m => m.input_tokens)).sum
    output_tokens := (ms.map (fun m => m.output_tokens)).sum
    tool_calls := (ms.map (fun m => m.tool_calls.length)).sum
    duration_minutes :=
      match (ms.map (fun m => m.created_at)).max?, (ms.map (fun m => m.created_at)).min? with
      | some mx, some mn => some (((mx - mn : Int) : ℚ) / 60)
      | _, _ => none }

/-- `getSessionStats` (src/db/index.ts): run the aggregate query, return
`null` if it produced no rows (`if (result.rows.length === 0) return null`),
else parse the single row — `parseFloat` of a NULL duration is NaN, and
`parseFloat(row.duration_minutes) || 0` turns that into 0. -/
def getSessionStats (db : Database) (sessionId : String) : Option SessionStatsResult :=
  match [sessionAggregateRow db sessionId] with
  | [] => none
  | row :: _ =>
    some { message_count := row.message_count
           thinking_tokens := row.thinking_tokens
           input_tokens := row.input_tokens
           output_tokens := row.output_tokens
           tool_calls := row.tool_calls
           duration_minutes := row.duration_minutes.getD 0 }

/-- Replace the thinking snippet of a result row by SQL NULL: the only
difference the `searchThinking` flag makes to the SELECT list of
`searchMessages`. -/
def stripThinking (r : SearchRow) : SearchRow :=
  { r with thinking_snippet := none }

/-! ## Concrete fixtures used to evaluate the queries -/

/-- A session row with the given id and defaulted remaining columns. -/
def exampleSession (i : String) : Session :=
  { id := i, name := "session", project_path := none, started_at := 0,
    ended_at := none, metadata := [] }

/-- A message row with the given id, session, creation time, thinking-token
count and tool calls, and defaulted remaining columns. -/
def exampleMessage (i sid : String) (ca tt : Int) (tcs : List ToolCall) : Message :=
  { id := i, session_id := sid, role := "user", content := "hello",
    thinking_content := none, thinking_tokens := tt, model := none,
    input_tokens := 0, output_tokens := 0, tool_calls := tcs, created_at := ca }

/-- A tool-call record with the given name, duration and error fields. -/
def exampleToolCall (n : Option String) (d : Option ℚ) (e : Option String) : ToolCall :=
  { id := "tc", name := n, input := [], output := none, error := e, duration_ms := d }

/-- A full-text match function that matches every document (used to exercise
the query structure at concrete inputs). -/
def allMatchFts : String → Option String → String → Bool := fun _ _ _ => true

/-- A rank function that scores every document 0, producing ties. -/
def constRankFts : String → Option String → String → ℚ := fun _ _ _ => 0

/-- A headline function that returns the field text unchanged. -/
def identityHeadline : String → String → String := fun text _ => text

/-- Search options with no filters, the default limit/offset of
`searchMessages`, and thinking search enabled. -/
def plainOpts : SearchOptions :=
  { sessionId := none, role := none, limit := 50, offset := 0, searchThinking := true }

/-- Two messages in one session that tie on both rank (any constant rank
function) and creation time, listed with the lexicographically larger id
first. -/
def tieDb : Database :=
  { sessions := [exampleSession "s1"],
    messages := [exampleMessage "b" "s1" 0 0 [], exampleMessage "a" "s1" 0 0 []] }

/-- One message carrying a single tool-call record that lacks a name. -/
def unnamedToolDb : Database :=
  { sessions := [exampleSession "s1"],
    messages := [exampleMessage "m1" "s1" 0 0 [exampleToolCall none none none]] }

/-- The tool-usage example of the spec: three calls to "bash", two successful
with durations 100ms and 200ms, one errored without a duration. -/
def bashDb : Database :=
  { sessions := [exampleSession "s1"],
    messages := [exampleMessage "m1" "s1" 0 0
      [exampleToolCall (some "bash") (some 100) none,
       exampleToolCall (some "bash") (some 200) none,
       exampleToolCall (some "bash") none (some "command failed")]] }

/-- The tool-usage row the spec's example expects for `bashDb`. -/
def bashRow : ToolUsageRow :=
  { tool_name := some "bash", call_count := 3, avg_duration_ms := some 150, error_count := 1 }

/-- A session with three messages of which two have positive thinking-token
counts (10 and 20) and one has zero. -/
def thinkingDb : Database :=
  { sessions := [exampleSession "s1"],
    messages := [exampleMessage "m1" "s1" 0 10 [], exampleMessage "m2" "s1" 1 0 [],
                 exampleMessage "m3" "s1" 2 20 []] }

/-- An extra message with zero thinking tokens, to append to `thinkingDb`. -/
def zeroThinkingMsg : Message := exampleMessage "m4" "s1" 3 0 []

/-- A one-session, one-message corpus used to instantiate search theorems. -/
def oneMsgDb : Database :=
  { sessions := [exampleSession "s1"],
    messages := [exampleMessage "m1" "s1" 0 0 []] }

/-- Capture input whose only thinking alias is an empty array. -/
def emptyArrInput : CaptureThinkingFields :=
  { thinking_content := none, thinking_text := none,
    thinking := some (.arr []), thoughts := none }

/-- Capture input whose only thinking alias is the array
`["alpha", "", "beta"]`. -/
def arrInput : CaptureThinkingFields :=
  { thinking_content := none, thinking_text := some (.arr ["alpha", "", "beta"]),
    thinking := none, thoughts := none }

/-! ## Helper lemmas -/

/-- No session row matches an id absent from the table. -/
lemma filter_sessions_not_mem (ss : List Session) (sid : String)
    (h : sid ∉ ss.map (fun s => s.id)) :
    ss.filter (fun s => s.id == sid) = [] := by
  rw [List.filter_eq_nil_iff]
  intro s hs hbeq
  exact h (List.mem_map.mpr ⟨s, hs, beq_iff_eq.mp hbeq⟩)

/-- Under the primary-key invariant (distinct session ids), an id present in
the table matches exactly one session row. -/
lemma filter_sessions_length_one (ss : List Session) (sid : String)
    (hnd : (ss.map (fun s => s.id)).Nodup) (hmem : sid ∈ ss.map (fun s => s.id)) :
    (ss.filter (fun s => s.id == sid)).length = 1 := by
  induction ss with
  | nil => simp at hmem
  | cons s ss ih =>
    simp only [List.map_cons, List.nodup_cons] at hnd
    simp only [List.map_cons, List.mem_cons] at hmem
    by_cases h : s.id = sid
    · rw [List.filter_cons_of_pos (by simpa using h),
        filter_sessions_not_mem ss sid (by rw [← h]; exact hnd.1)]
      rfl
    · rw [List.filter_cons_of_neg (by simpa using h)]
      exact ih hnd.2 (hmem.resolve_left (fun he => h he.symm))

/-- Under the primary-key and foreign-key invariants, filtering the joined
message-session pairs by a message predicate yields as many pairs as there
are matching messages: the join neither drops nor duplicates a message. -/
lemma filter_join_length (ss : List Session) (ms : List Message) (P : Message → Bool)
    (hnd : (ss.map (fun s => s.id)).Nodup)
    (hfk : ∀ m ∈ ms, m.session_id ∈ ss.map (fun s => s.id)) :
    ((ms.flatMap (fun m =>
        (ss.filter (fun s => s.id == m.session_id)).map (fun s => (m, s)))).filter
      (fun p => P p.1)).length = (ms.filter P).length := by
  induction ms with
  | nil => rfl
  | cons m ms ih =>
    have hone := filter_sessions_length_one ss m.session_id hnd
      (hfk m (List.mem_cons_self m ms))
    have htail := ih (fun m' hm' => hfk m' (List.mem_cons_of_mem m hm'))
    have hpred : ((fun p : Message × Session => P p.1) ∘ fun s => (m, s))
        = fun _ => P m := rfl
    simp only [List.flatMap_cons, List.filter_append, List.length_append, htail,
      List.filter_map, hpred, List.length_map]
    by_cases h : P m
    · simp only [h, List.filter_true, List.filter_cons_of_pos h, List.length_cons, hone]
      omega
    · have hf : P m = false := by simpa using h
      simp only [hf, List.filter_false, List.filter_cons_of_neg h, List.length_nil]
      omega

/-- The first component of any joined pair is a message of the table. -/
lemma fst_mem_of_mem_joinedPairs (db : Database) (p : Message × Session)
    (hp : p ∈ joinedPairs db) : p.1 ∈ db.messages := by
  rcases List.mem_flatMap.mp hp with ⟨m, hm, hmem⟩
  rcases List.mem_map.mp hmem with ⟨s, _, heq⟩
  rw [← heq]
  exact hm

/-- Ordered insertion commutes with mapping a function that preserves the
order relation. -/
lemma orderedInsert_map {α : Type} (r : α → α → Prop) [DecidableRel r] (f : α → α)
    (hf : ∀ a b, r (f a) (f b) ↔ r a b) (a : α) :
    ∀ l : List α, List.orderedInsert r (f a) (l.map f)
      = (List.orderedInsert r a l).map f
  | [] => rfl
  | b :: l => by
    simp only [List.map_cons, List.orderedInsert]
    by_cases h : r a b
    · rw [if_pos ((hf a b).mpr h), if_pos h, List.map_cons, List.map_cons]
    · rw [if_neg (fun hc => h ((hf a b).mp hc)), if_neg h, List.map_cons,
        orderedInsert_map r f hf a l]

/-- Insertion sort commutes with mapping a function that preserves the order
relation. -/
lemma insertionSort_map {α : Type} (r : α → α → Prop) [DecidableRel r] (f : α → α)
    (hf : ∀ a b, r (f a) (f b) ↔ r a b) :
    ∀ l : List α, List.insertionSort r (l.map f)
      = (List.insertionSort r l).map f
  | [] => rfl
  | a :: l => by
    simp only [List.map_cons, List.insertionSort]
    rw [insertionSort_map r f hf l, orderedInsert_map r f hf a]

/-- The rows of `getToolUsageStats` are exactly the aggregate rows of the
distinct name keys (the final ORDER BY only permutes them). -/
lemma mem_getToolUsageStats_iff (db : Database) (row : ToolUsageRow) :
    row ∈ getToolUsageStats db
      ↔ ∃ n ∈ toolNameKeys db, row = toolGroupRow (allToolCalls db) n := by
  unfold getToolUsageStats
  rw [(List.perm_insertionSort callCountOrder _).mem_iff, List.mem_map]
  constructor
  · rintro ⟨n, hn, he⟩
    exact ⟨n, hn, he.symm⟩
  · rintro ⟨n, hn, he⟩
    exact ⟨n, hn, he.symm⟩

/-! ## Claim theorems -/

/-- C1: the claim says `getSessionStats` fails with NotFound (returns an
absent result) for a session with zero messages.  The aggregate query has no
GROUP BY, so it always yields exactly one row and the
`result.rows.length === 0` guard never fires: the function returns a present
result with zero duration for every session id, including one whose session
has no messages.  Proved here: the result is `some` for every database and
session id, and on a concrete session with zero messages it is statistics
with `duration_minutes = 0` — exactly what the claim says must not happen. -/
theorem getSessionStats_never_absent :
    (∀ (db : Database) (sid : String), (getSessionStats db sid).isSome = true) ∧
    getSessionStats { sessions := [exampleSession "s1"], messages := [] } "s1"
      = some { message_count := 0, thinking_tokens := 0, input_tokens := 0,
               output_tokens := 0, tool_calls := 0, duration_minutes := 0 } :=
  ⟨fun _ _ => rfl, by decide⟩

/-- C2 counterexample: two hits that tie on rank (a constant rank function)
and on creation time are returned in the table order `["b", "a"]`, with the
lexicographically larger id first — the SQL `ORDER BY rank DESC,
m.created_at DESC` has no id tie-break, so the claimed id-ascending order
among full ties does not hold. -/
theorem searchMessages_tie_order_counterexample :
    ((searchMessages allMatchFts constRankFts identityHeadline tieDb "q" plainOpts).1.map
        (fun r => (r.rank, r.created_at, r.id)))
      = [(0, 0, "b"), (0, 0, "a")] ∧ "a".toList < "b".toList := by
  refine ⟨by decide, by decide⟩

/-- C2 amended: search results are sorted by rank descending, then creation
time descending; the query orders by no further key, so rows that tie on both
keys are returned in an order the SQL does not specify (the embedding
realizes the stable table order), and no id-ascending tie-break exists. -/
theorem searchMessages_results_sorted
    (ftsMatch : String → Option String → String → Bool)
    (ftsRank : String → Option String → String → ℚ)
    (tsHeadline : String → String → String)
    (db : Database) (query : String) (opts : SearchOptions) :
    List.Sorted searchOrder
      (searchMessages ftsMatch ftsRank tsHeadline db query opts).1 := by
  have hsorted := List.sorted_insertionSort searchOrder
    ((searchCandidates ftsMatch db query opts).map
      (fun p => mkSearchRow ftsRank tsHeadline query opts.searchThinking p.1 p.2))
  exact List.Pairwise.sublist
    ((List.take_sublist _ _).trans (List.drop_sublist _ _)) hsorted

/-- C3 counterexample: a corpus whose only tool-call record lacks a name.
The claim says no group is produced for such entries, but SQL `GROUP BY
tool_call->>'name'` groups all NULL keys together: `getToolUsageStats`
returns one group whose `tool_name` is NULL. -/
theorem toolUsageStats_unnamed_group_counterexample :
    getToolUsageStats unnamedToolDb
      = [{ tool_name := none, call_count := 1, avg_duration_ms := none, error_count := 0 }] ∧
    getToolUsageStats unnamedToolDb ≠ [] := by
  refine ⟨by decide, by decide⟩

/-- C3 amended: `getToolUsageStats` groups tool-call records by their
(possibly absent) name: a group with key `n` exists exactly when some
tool-call record carries that name value, so records lacking a name are not
excluded but collected into a single group whose `tool_name` is NULL. -/
theorem toolUsageStats_group_exists_iff (db : Database) (n : Option String) :
    (∃ row ∈ getToolUsageStats db, row.tool_name = n)
      ↔ ∃ c ∈ allToolCalls db, c.name = n := by
  constructor
  · rintro ⟨row, hrow, hname⟩
    rcases (mem_getToolUsageStats_iff db row).mp hrow with ⟨k, hk, he⟩
    subst he
    unfold toolNameKeys at hk
    rcases List.mem_map.mp (List.mem_dedup.mp hk) with ⟨c, hc, hcn⟩
    exact ⟨c, hc, by rw [hcn]; exact hname⟩
  · rintro ⟨c, hc, hcn⟩
    refine ⟨toolGroupRow (allToolCalls db) n, ?_, rfl⟩
    apply (mem_getToolUsageStats_iff db _).mpr
    refine ⟨n, ?_, rfl⟩
    unfold toolNameKeys
    exact List.mem_dedup.mpr (List.mem_map.mpr ⟨c, hc, hcn⟩)

/-- C4: `total` equals the number of messages satisfying the full-text match
together with the session/role filters — under the schema's primary-key
(distinct session ids) and foreign-key (every message's session exists)
invariants the JOIN neither drops nor duplicates a message — and `total` is
unchanged by any values of `limit` and `offset`, since the COUNT query is
issued without pagination. -/
theorem searchMessages_total_eq_filtered_count
    (ftsMatch : String → Option String → String → Bool)
    (ftsRank : String → Option String → String → ℚ)
    (tsHeadline : String → String → String)
    (db : Database) (query : String) (opts : SearchOptions) (l o : Int)
    (hpk : (db.sessions.map (fun s => s.id)).Nodup)
    (hfk : ∀ m ∈ db.messages, m.session_id ∈ db.sessions.map (fun s => s.id)) :
    (searchMessages ftsMatch ftsRank tsHeadline db query opts).2
      = (db.messages.filter (matchesConditions ftsMatch query opts)).length ∧
    (searchMessages ftsMatch ftsRank tsHeadline db query
        { opts with limit := l, offset := o }).2
      = (searchMessages ftsMatch ftsRank tsHeadline db query opts).2 :=
  ⟨filter_join_length db.sessions db.messages
      (matchesConditions ftsMatch query opts) hpk hfk,
   rfl⟩

/-- C4 witness: on a concrete one-message corpus the total is the filtered
message count and does not change when the limit and offset do. -/
theorem searchMessages_total_eq_filtered_count_witness :
    (searchMessages allMatchFts constRankFts identityHeadline oneMsgDb "q" plainOpts).2
      = (oneMsgDb.messages.filter (matchesConditions allMatchFts "q" plainOpts)).length ∧
    (searchMessages allMatchFts constRankFts identityHeadline oneMsgDb "q"
        { plainOpts with limit := 3, offset := 1 }).2
      = (searchMessages allMatchFts constRankFts identityHeadline oneMsgDb "q" plainOpts).2 :=
  searchMessages_total_eq_filtered_count allMatchFts constRankFts identityHeadline
    oneMsgDb "q" plainOpts 3 1 (by decide) (by decide)

/-- C5: `avg_thinking_tokens_per_message` ignores messages with zero thinking
tokens on both sides of the division: appending a zero-thinking message to
the corpus leaves the average unchanged, and whenever at least one message
has positive thinking tokens the average equals the sum of thinking tokens
over those messages divided by their number. -/
theorem overallStats_avg_excludes_zero_thinking (db : Database) (m0 : Message)
    (h0 : m0.thinking_tokens = 0) :
    (getOverallStats
        { sessions := db.sessions
          messages := db.messages ++ [m0] }).avg_thinking_tokens_per_message
      = (getOverallStats db).avg_thinking_tokens_per_message ∧
    ((db.messages.filter (fun m => 0 < m.thinking_tokens)).length ≠ 0 →
      (getOverallStats db).avg_thinking_tokens_per_message
        = (((db.messages.filter (fun m => 0 < m.thinking_tokens)).map
              (fun m => m.thinking_tokens)).sum : ℚ)
          / ((db.messages.filter (fun m => 0 < m.thinking_tokens)).length : ℚ)) := by
  have hfil : (db.messages ++ [m0]).filter (fun m => 0 < m.thinking_tokens)
      = db.messages.filter (fun m => 0 < m.thinking_tokens) := by
    rw [List.filter_append]
    have hm0 : [m0].filter (fun m => 0 < m.thinking_tokens) = [] := by
      simp [List.filter, h0]
    rw [hm0, List.append_nil]
  constructor
  · dsimp only [getOverallStats]
    rw [hfil]
  · intro h
    dsimp only [getOverallStats]
    rw [if_neg h]

/-- C5 witness: with thinking-token counts 10, 0, 20 the average is 15, and
appending a fourth zero-thinking message does not move it. -/
theorem overallStats_avg_excludes_zero_thinking_witness :
    (getOverallStats
        { sessions := thinkingDb.sessions
          messages := thinkingDb.messages ++ [zeroThinkingMsg] }).avg_thinking_tokens_per_message
      = (getOverallStats thinkingDb).avg_thinking_tokens_per_message ∧
    (getOverallStats thinkingDb).avg_thinking_tokens_per_message = 15 := by
  have h := overallStats_avg_excludes_zero_thinking thinkingDb zeroThinkingMsg rfl
  refine ⟨h.1, ?_⟩
  norm_num [getOverallStats, thinkingDb, exampleMessage, exampleSession, List.filter]

/-- C6: every row of `getToolUsageStats` aggregates exactly the tool-call
records bearing its name key: `call_count` counts them all,
`avg_duration_ms` averages the durations of those that carry one (NULL when
none does), and `error_count` counts those that recorded an error. -/
theorem toolUsageStats_row_aggregates (db : Database) (row : ToolUsageRow)
    (h : row ∈ getToolUsageStats db) :
    row.call_count = (toolGroup (allToolCalls db) row.tool_name).length ∧
    row.avg_duration_ms =
      (if ((toolGroup (allToolCalls db) row.tool_name).filterMap
            (fun c => c.duration_ms)).length = 0
       then none
       else some (((toolGroup (allToolCalls db) row.tool_name).filterMap
              (fun c => c.duration_ms)).sum
         / (((toolGroup (allToolCalls db) row.tool_name).filterMap
              (fun c => c.duration_ms)).length : ℚ))) ∧
    row.error_count
      = ((toolGroup (allToolCalls db) row.tool_name).filter
          (fun c => c.error.isSome)).length := by
  rcases (mem_getToolUsageStats_iff db row).mp h with ⟨n, _, he⟩
  subst he
  exact ⟨rfl, rfl, rfl⟩

/-- C6 witness: the spec's example — three calls to "bash", durations 100ms
and 200ms plus one errored call without a duration — yields call count 3,
average duration 150 and error count 1, and that row satisfies the general
aggregate characterization. -/
theorem toolUsageStats_row_aggregates_witness :
    getToolUsageStats bashDb = [bashRow] ∧
    bashRow.call_count = (toolGroup (allToolCalls bashDb) bashRow.tool_name).length ∧
    bashRow.avg_duration_ms =
      (if ((toolGroup (allToolCalls bashDb) bashRow.tool_name).filterMap
            (fun c => c.duration_ms)).length = 0
       then none
       else some (((toolGroup (allToolCalls bashDb) bashRow.tool_name).filterMap
              (fun c => c.duration_ms)).sum
         / (((toolGroup (allToolCalls bashDb) bashRow.tool_name).filterMap
              (fun c => c.duration_ms)).length : ℚ))) ∧
    bashRow.error_count
      = ((toolGroup (allToolCalls bashDb) bashRow.tool_name).filter
          (fun c => c.error.isSome)).length := by
  have hev : getToolUsageStats bashDb = [bashRow] := by
    norm_num [getToolUsageStats, toolNameKeys, allToolCalls, toolGroup, toolGroupRow,
      bashDb, bashRow, exampleMessage, exampleToolCall, exampleSession,
      List.insertionSort, List.dedup, List.filterMap_cons, List.filterMap_nil]
  have hmem : bashRow ∈ getToolUsageStats bashDb := by
    rw [hev]
    exact List.mem_singleton.mpr rfl
  exact ⟨hev, toolUsageStats_row_aggregates bashDb bashRow hmem⟩

/-- C7 counterexample: the claim says a negative limit or offset is rejected
with a `ValidationError`.  `parsePagination` has no throwing path at all — the
embedding is a total function, faithfully to the source — and on the negative
inputs `-5`/`-3` it silently clamps to limit 1 and offset 0 instead of
raising anything. -/
theorem parsePagination_negative_accepted_counterexample :
    parsePagination (some "-5") (some "-3") PAGINATION_MAX_LIMIT
      PAGINATION_DEFAULT_LIMIT = (1, 0) := by decide

/-- C7 amended: a negative parsed limit is clamped to 1 and a negative parsed
offset is clamped to 0 — the inputs are silently adjusted, never rejected. -/
theorem parsePagination_clamps_negative (limitStr offsetStr : String)
    (l o maxLimit defaultLimit : Int)
    (hl : jsParseInt limitStr = some l) (hlneg : l < 0)
    (ho : jsParseInt offsetStr = some o) (honeg : o < 0)
    (hmax : 1 ≤ maxLimit) :
    parsePagination (some limitStr) (some offsetStr) maxLimit defaultLimit
      = (1, 0) := by
  simp only [parsePagination, Option.getD_some, hl, ho, jsOrIntDefault, jsMax, jsMin]
  rw [if_neg (by omega : ¬ l = 0), if_neg (by omega : ¬ o = 0),
    if_neg (by omega : ¬ (1 : Int) ≤ l), if_neg (by omega : ¬ (0 : Int) ≤ o)]
  by_cases hm : maxLimit ≤ 1
  · rw [if_pos hm, le_antisymm hm hmax]
  · rw [if_neg hm]

/-- C7 witness: limit string "-7" and offset string "-2" with the route's
max limit 100 and default limit 50 are clamped to `(1, 0)`. -/
theorem parsePagination_clamps_negative_witness :
    parsePagination (some "-7") (some "-2") 100 50 = (1, 0) :=
  parsePagination_clamps_negative "-7" "-2" (-7) (-2) 100 50
    (by decide) (by decide) (by decide) (by decide) (by decide)

/-- C8: filtering on a session id that exists in no session row (under the
schema's foreign-key invariant no message can reference it either) makes the
WHERE clause reject every message: the search returns no results and total
0, and no error path exists. -/
theorem searchMessages_unknown_session_empty
    (ftsMatch : String → Option String → String → Bool)
    (ftsRank : String → Option String → String → ℚ)
    (tsHeadline : String → String → String)
    (db : Database) (query sid : String) (role : Option String)
    (l o : Int) (st : Bool)
    (hsid : sid ≠ "")
    (hnot : sid ∉ db.sessions.map (fun s => s.id))
    (hfk : ∀ m ∈ db.messages, m.session_id ∈ db.sessions.map (fun s => s.id)) :
    searchMessages ftsMatch ftsRank tsHeadline db query
      { sessionId := some sid, role := role, limit := l, offset := o,
        searchThinking := st }
      = ([], 0) := by
  have hcand : searchCandidates ftsMatch db query
      { sessionId := some sid, role := role, limit := l, offset := o,
        searchThinking := st } = [] := by
    unfold searchCandidates
    rw [List.filter_eq_nil_iff]
    intro p hp
    have hm : p.1 ∈ db.messages := fst_mem_of_mem_joinedPairs db p hp
    have hne : p.1.session_id ≠ sid := fun he => hnot (he ▸ hfk p.1 hm)
    simp [matchesConditions, hsid, hne]
  unfold searchMessages
  rw [hcand]
  simp

/-- C8 witness: searching a one-message corpus with the unknown session id
"missing" yields no results and total 0. -/
theorem searchMessages_unknown_session_empty_witness :
    searchMessages allMatchFts constRankFts identityHeadline oneMsgDb "q"
      { sessionId := some "missing", role := none, limit := 50, offset := 0,
        searchThinking := true }
      = ([], 0) :=
  searchMessages_unknown_session_empty allMatchFts constRankFts identityHeadline
    oneMsgDb "q" "missing" none 50 0 true (by decide) (by decide) (by decide)

/-- C9: the `searchThinking` flag only switches the thinking-snippet column
of the SELECT list between a headline and the literal NULL: with the flag
off, the result list is exactly the flag-on result list with every thinking
snippet replaced by NULL — same matched documents, same order, same content
snippets — and the total is identical. -/
theorem searchMessages_searchThinking_frame
    (ftsMatch : String → Option String → String → Bool)
    (ftsRank : String → Option String → String → ℚ)
    (tsHeadline : String → String → String)
    (db : Database) (query : String) (sid role : Option String) (l o : Int) :
    searchMessages ftsMatch ftsRank tsHeadline db query
      { sessionId := sid, role := role, limit := l, offset := o,
        searchThinking := false }
      = ((searchMessages ftsMatch ftsRank tsHeadline db query
            { sessionId := sid, role := role, limit := l, offset := o,
              searchThinking := true }).1.map stripThinking,
         (searchMessages ftsMatch ftsRank tsHeadline db query
            { sessionId := sid, role := role, limit := l, offset := o,
              searchThinking := true }).2) := by
  have hcand : searchCandidates ftsMatch db query
      { sessionId := sid, role := role, limit := l, offset := o,
        searchThinking := false }
      = searchCandidates ftsMatch db query
        { sessionId := sid, role := role, limit := l, offset := o,
          searchThinking := true } := rfl
  have hmaps : (searchCandidates ftsMatch db query
        { sessionId := sid, role := role, limit := l, offset := o,
          searchThinking := true }).map
        (fun p => mkSearchRow ftsRank tsHeadline query false p.1 p.2)
      = ((searchCandidates ftsMatch db query
          { sessionId := sid, role := role, limit := l, offset := o,
            searchThinking := true }).map
          (fun p => mkSearchRow ftsRank tsHeadline query true p.1 p.2)).map
          stripThinking := by
    rw [List.map_map]
    rfl
  unfold searchMessages
  rw [hcand]
  dsimp only
  rw [hmaps, insertionSort_map searchOrder stripThinking (fun a b => Iff.rfl),
    ← List.map_drop, ← List.map_take]

/-- C10 counterexample: when the resolved thinking value is the empty array,
the claim says the stored `thinking_content` is null; the code stores the
empty string instead, because `![]` is false in JavaScript (every array is
truthy) and `[].filter(Boolean).join('\n')` is `""`. -/
theorem capturedThinkingContent_empty_array_counterexample :
    capturedThinkingContent emptyArrInput = some "" ∧
    capturedThinkingContent emptyArrInput ≠ none := by
  refine ⟨by decide, by decide⟩

/-- C10 amended: the stored `thinking_content` is null exactly when the
resolved alternate-field value is absent or the empty string; an array value
— empty or not — is stored as its falsy-filtered elements joined with
newlines (the empty array therefore yields the empty string, not null), and
a non-empty string value is stored as itself. -/
theorem capturedThinkingContent_cases (i : CaptureThinkingFields) :
    (capturedThinkingContent i = none ↔
      (resolvedThinking i = none ∨ resolvedThinking i = some (.str ""))) ∧
    (∀ xs, resolvedThinking i = some (.arr xs) →
      capturedThinkingContent i
        = some (String.intercalate "\n" (xs.filter (fun x => !(x == ""))))) ∧
    (∀ s, resolvedThinking i = some (.str s) → s ≠ "" →
      capturedThinkingContent i = some s) := by
  cases h : resolvedThinking i with
  | none => simp [capturedThinkingContent, normalizeThinkingContent, h]
  | some v =>
    cases v with
    | str s =>
      by_cases hs : s = ""
      · subst hs
        simp [capturedThinkingContent, normalizeThinkingContent, thinkingTruthy, h]
      · simp [capturedThinkingContent, normalizeThinkingContent, thinkingTruthy, h, hs]
    | arr xs =>
      simp [capturedThinkingContent, normalizeThinkingContent, thinkingTruthy, h]

/-- C10 witness: the alias array `["alpha", "", "beta"]` is stored as
`"alpha\nbeta"` — the falsy-filtered elements joined with a newline. -/
theorem capturedThinkingContent_cases_witness :
    capturedThinkingContent arrInput
      = some (String.intercalate "\n" (["alpha", "", "beta"].filter (fun x => !(x == "")))) ∧
    capturedThinkingContent arrInput = some "alpha\nbeta" :=
  ⟨(capturedThinkingContent_cases arrInput).2.1 ["alpha", "", "beta"] rfl, by decide⟩

end ThinkTracker
